import Mathlib

/-!
Shallow embedding of the batched serial-bus register transaction protocol of the
iclib drivers: INA229 (src/iclib/ina229.py), MCP23S17 (src/iclib/mcp23s17.py)
and LTC6810 (src/iclib/ltc6810.py).

Machine integers are modelled as Nat with explicit masking where the source
masks; Python assertions become Option results; the external SPI bus transport
(periphery SPI.transfer) is a function argument, and the batching entry points
additionally return the list of transfer calls they issue so that the
one-physical-transfer-per-batch property is expressible.
-/

/-- Python list slice l[-k:]: the last k elements for 0 < k (clamped to the
whole list when k exceeds the length), and the whole list for k = 0. -/
def pyTakeLast {α : Type} (l : List α) (k : Nat) : List α :=
  if k = 0 then l else l.drop (l.length - k)

/-- The SPI bus configuration fields read at construction time
(periphery SPI: mode, max_speed, bit_order, bits_per_word, extra_flags). -/
structure SPISettings where
  mode : Nat
  max_speed : ℚ
  bit_order : String
  bits_per_word : Nat
  extra_flags : Nat
  deriving DecidableEq

/-- The configuration errors raised by the drivers' post-init validation
(each corresponds to one ValueError message in the source). -/
inductive ConfigError
  | unsupportedMode
  | unsupportedMaxSpeed
  | unsupportedBitOrder
  | unsupportedWordBitCount
  deriving DecidableEq

namespace INA229

/-- The supported spi modes (ina229.py line 10). -/
def SPI_MODES : List Nat := [0b00, 0b11]

/-- The supported maximum spi maximum speed, 10e6 (ina229.py line 12). -/
def MAX_SPI_MAX_SPEED : ℚ := 10000000

/-- The supported spi bit order (ina229.py line 14). -/
def SPI_BIT_ORDER : String := "msb"

/-- The supported spi number of bits per word (ina229.py line 16). -/
def SPI_WORD_BIT_COUNT : Nat := 8

/-- The INA229 register map (ina229.py lines 30-50). -/
inductive Register
  | CONFIG
  | ADC_CONFIG
  | SHUNT_CAL
  | SHUNT_TEMPCO
  | VSHUNT
  | VBUS
  | DIETEMP
  | CURRENT
  | POWER
  | ENERGY
  | CHARGE
  | DIAG_ALRT
  | SOVL
  | SUVL
  | BOVL
  | BUVL
  | TEMP_LIMIT
  | PWR_LIMIT
  | MANUFACTURING_ID
  | DEVICE_ID
  deriving DecidableEq

/-- The register address (first member of each enum value). -/
def Register.address : Register → Nat
  | .CONFIG => 0x00
  | .ADC_CONFIG => 0x01
  | .SHUNT_CAL => 0x02
  | .SHUNT_TEMPCO => 0x03
  | .VSHUNT => 0x04
  | .VBUS => 0x05
  | .DIETEMP => 0x06
  | .CURRENT => 0x07
  | .POWER => 0x08
  | .ENERGY => 0x09
  | .CHARGE => 0x0A
  | .DIAG_ALRT => 0x0B
  | .SOVL => 0x0C
  | .SUVL => 0x0D
  | .BOVL => 0x0E
  | .BUVL => 0x0F
  | .TEMP_LIMIT => 0x10
  | .PWR_LIMIT => 0x11
  | .MANUFACTURING_ID => 0x3E
  | .DEVICE_ID => 0x3F

/-- The register size in bits (third member of each enum value). -/
def Register.size : Register → Nat
  | .CONFIG => 16
  | .ADC_CONFIG => 16
  | .SHUNT_CAL => 16
  | .SHUNT_TEMPCO => 16
  | .VSHUNT => 24
  | .VBUS => 24
  | .DIETEMP => 16
  | .CURRENT => 24
  | .POWER => 24
  | .ENERGY => 40
  | .CHARGE => 40
  | .DIAG_ALRT => 16
  | .SOVL => 16
  | .SUVL => 16
  | .BOVL => 16
  | .BUVL => 16
  | .TEMP_LIMIT => 16
  | .PWR_LIMIT => 16
  | .MANUFACTURING_ID => 16
  | .DEVICE_ID => 16

/-- SPIFrame with its two dataclass variants SPIReadFrame and SPIWriteFrame
(ina229.py lines 96-161), as a sum type. -/
inductive SPIFrame
  | read (register : Register)
  | write (register : Register) (data : Nat)
  deriving DecidableEq

instance : Inhabited SPIFrame := ⟨SPIFrame.read Register.CONFIG⟩

/-- The frame's target register. -/
def SPIFrame.register : SPIFrame → Register
  | .read r => r
  | .write r _ => r

/-- read_or_write_bit: READ_OR_WRITE_TYPE == ReadOrWriteType.READ. -/
def SPIFrame.read_or_write_bit : SPIFrame → Bool
  | .read _ => true
  | .write _ _ => false

/-- control_byte: (register.address << 2) | read_or_write_bit. -/
def SPIFrame.control_byte (f : SPIFrame) : Nat :=
  (f.register.address <<< 2) ||| f.read_or_write_bit.toNat

/-- data_byte_count: register.size // SPI_WORD_BIT_COUNT. -/
def SPIFrame.data_byte_count (f : SPIFrame) : Nat :=
  f.register.size / SPI_WORD_BIT_COUNT

/-- transmitted_data_byte_count: 1 + data_byte_count. -/
def SPIFrame.transmitted_data_byte_count (f : SPIFrame) : Nat :=
  1 + f.data_byte_count

/-- data_bytes: zero filler for SPIReadFrame (ina229.py lines 143-145), the
big-endian two-byte split of data for SPIWriteFrame (lines 156-161). -/
def SPIFrame.data_bytes (f : SPIFrame) : List Nat :=
  match f with
  | .read _ => List.replicate f.data_byte_count 0
  | .write _ d => [d >>> SPI_WORD_BIT_COUNT, d &&& ((1 <<< SPI_WORD_BIT_COUNT) - 1)]

/-- transmitted_data_bytes: [control_byte, *data_bytes]. -/
def SPIFrame.transmitted_data_bytes (f : SPIFrame) : List Nat :=
  f.control_byte :: f.data_bytes

/-- parse_received_data (ina229.py lines 126-136): assert the slice length
equals the transmitted byte count and the leading echo byte is falsy, then
assemble the last data_byte_count bytes big-endian. Assertion failures are
modelled as none. -/
def SPIFrame.parse_received_data (f : SPIFrame) (data_bytes : List Nat) :
    Option Nat :=
  if data_bytes.length = f.transmitted_data_byte_count ∧ data_bytes.headD 0 = 0
  then
    some ((pyTakeLast data_bytes f.data_byte_count).foldl
      (fun parsed_data data_byte =>
        (parsed_data <<< SPI_WORD_BIT_COUNT) ||| data_byte) 0)
  else none

/-- SPIWriteFrame.__post_init__ asserts register.size == 16
(ina229.py lines 153-154); construction of a write frame is fallible. -/
def mkSPIWriteFrame (register : Register) (data : Nat) : Option SPIFrame :=
  if register.size = 16 then some (SPIFrame.write register data) else none

/-- The dataclass invariant established by the constructors: any SPIReadFrame,
and an SPIWriteFrame only for a 16-bit register (the post-init assertion). -/
def SPIFrame.wf : SPIFrame → Prop
  | .read _ => True
  | .write r _ => r.size = 16

/-- The transmit buffer built by the accumulation loop of spi_communicate
(ina229.py lines 196-199). -/
def spiTransmittedBuffer (spi_frames : List SPIFrame) : List Nat :=
  spi_frames.foldl (fun acc f => acc ++ f.transmitted_data_bytes) []

/-- The begin/end response-slicing loop of spi_communicate
(ina229.py lines 206-217); a failed parse aborts the whole batch. -/
def parseFrames : List SPIFrame → List Nat → Nat → Option (List Nat)
  | [], _, _ => some []
  | f :: rest, rx, b =>
    match f.parse_received_data ((rx.drop b).take f.transmitted_data_byte_count),
        parseFrames rest rx (b + f.transmitted_data_byte_count) with
    | some v, some vs => some (v :: vs)
    | _, _ => none

/-- INA229.spi_communicate (ina229.py lines 195-220), instrumented with the
list of transfer calls issued to the bus transport. The source asserts that
the received length equals the transmitted length before slicing. -/
def spi_communicate (transfer : List Nat → List Nat)
    (spi_frames : List SPIFrame) : Option (List Nat) × List (List Nat) :=
  let transmitted_data_bytes := spiTransmittedBuffer spi_frames
  let received_data_bytes := transfer transmitted_data_bytes
  if received_data_bytes.length = transmitted_data_bytes.length then
    (parseFrames spi_frames received_data_bytes 0, [transmitted_data_bytes])
  else (none, [transmitted_data_bytes])

/-- INA229.read (ina229.py lines 222-223). -/
def read (transfer : List Nat → List Nat) (register : Register) : Option Nat :=
  ((spi_communicate transfer [SPIFrame.read register]).1).bind List.head?

/-- INA229.write (ina229.py lines 225-226); building the SPIWriteFrame runs
the post-init assertion first. -/
def write (transfer : List Nat → List Nat) (register : Register) (data : Nat) :
    Option Nat :=
  (mkSPIWriteFrame register data).bind fun f =>
    ((spi_communicate transfer [f]).1).bind List.head?

/-- INA229.__post_init__ validation chain (ina229.py lines 180-188); extra
flags only produce a warning and never an error. -/
def post_init (s : SPISettings) : Option ConfigError :=
  if s.mode ∉ SPI_MODES then some ConfigError.unsupportedMode
  else if s.max_speed > MAX_SPI_MAX_SPEED then some ConfigError.unsupportedMaxSpeed
  else if s.bit_order ≠ SPI_BIT_ORDER then some ConfigError.unsupportedBitOrder
  else if s.bits_per_word ≠ SPI_WORD_BIT_COUNT then
    some ConfigError.unsupportedWordBitCount
  else none

end INA229

namespace MCP23S17

/-- The supported spi modes (mcp23s17.py line 11). -/
def SPI_MODES : List Nat := [0b00, 0b11]

/-- The supported maximum spi maximum speed, 10e6 (mcp23s17.py line 13). -/
def MAX_SPI_MAX_SPEED : ℚ := 10000000

/-- The supported spi bit order (mcp23s17.py line 15). -/
def SPI_BIT_ORDER : String := "msb"

/-- The supported spi number of bits per word (mcp23s17.py line 17). -/
def SPI_WORD_BIT_COUNT : Nat := 8

/-- Operation with its two dataclass variants Read and Write
(mcp23s17.py lines 151-207), as a sum type. -/
inductive Operation
  | read (hardware_address register_address data_byte_count : Nat)
  | write (hardware_address register_address : Nat) (data_bytes : List Nat)
  deriving DecidableEq

instance : Inhabited Operation := ⟨Operation.read 0 0 0⟩

/-- READ_OR_WRITE_BIT: 1 for Read, 0 for Write. -/
def Operation.READ_OR_WRITE_BIT : Operation → Nat
  | .read _ _ _ => 1
  | .write _ _ _ => 0

/-- The hardware address field. -/
def Operation.hardware_address : Operation → Nat
  | .read a _ _ => a
  | .write a _ _ => a

/-- The register address field. -/
def Operation.register_address : Operation → Nat
  | .read _ r _ => r
  | .write _ r _ => r

/-- control_byte: (0b0100 << 4) | (hardware_address << 1) | READ_OR_WRITE_BIT
(mcp23s17.py lines 157-163). -/
def Operation.control_byte (op : Operation) : Nat :=
  (0b0100 <<< 4) ||| (op.hardware_address <<< 1) ||| op.READ_OR_WRITE_BIT

/-- data_byte_count: the declared count for Read, the length of the data for
Write. -/
def Operation.data_byte_count : Operation → Nat
  | .read _ _ n => n
  | .write _ _ ds => ds.length

/-- data_bytes: all-ones filler for Read (mcp23s17.py lines 195-197), the
given bytes for Write. -/
def Operation.data_bytes : Operation → List Nat
  | .read _ _ n => List.replicate n ((1 <<< SPI_WORD_BIT_COUNT) - 1)
  | .write _ _ ds => ds

/-- transmitted_data_bytes: [control_byte, register_address, *data_bytes]. -/
def Operation.transmitted_data_bytes (op : Operation) : List Nat :=
  op.control_byte :: op.register_address :: op.data_bytes

/-- transmitted_data_byte_count: 2 + data_byte_count. -/
def Operation.transmitted_data_byte_count (op : Operation) : Nat :=
  2 + op.data_byte_count

/-- parse_received_data_bytes (mcp23s17.py lines 183-187): the last
data_byte_count bytes of the given slice, with no length assertion. -/
def Operation.parse_received_data_bytes (op : Operation)
    (data_bytes : List Nat) : List Nat :=
  pyTakeLast data_bytes op.data_byte_count

/-- The transmit buffer built by the accumulation loop of operate
(mcp23s17.py lines 243-246). -/
def operateTransmittedBuffer (operations : List Operation) : List Nat :=
  operations.foldl (fun acc op => acc ++ op.transmitted_data_bytes) []

/-- The begin/end response-slicing loop of operate (mcp23s17.py lines
252-264); the per-operation parsed bytes are flattened with extend. -/
def collectOperations : List Operation → List Nat → Nat → List Nat
  | [], _, _ => []
  | op :: rest, rx, b =>
    op.parse_received_data_bytes
        ((rx.drop b).take op.transmitted_data_byte_count)
      ++ collectOperations rest rx (b + op.transmitted_data_byte_count)

/-- MCP23S17.operate (mcp23s17.py lines 242-266), instrumented with the list
of transfer calls issued. The source performs no response length check. -/
def operate (transfer : List Nat → List Nat) (operations : List Operation) :
    List Nat × List (List Nat) :=
  let transmitted_data_bytes := operateTransmittedBuffer operations
  let received_data_bytes := transfer transmitted_data_bytes
  (collectOperations operations received_data_bytes 0,
    [transmitted_data_bytes])

/-- MCP23S17.__post_init__ validation chain (mcp23s17.py lines 229-237). -/
def post_init (s : SPISettings) : Option ConfigError :=
  if s.mode ∉ SPI_MODES then some ConfigError.unsupportedMode
  else if s.max_speed > MAX_SPI_MAX_SPEED then some ConfigError.unsupportedMaxSpeed
  else if s.bit_order ≠ SPI_BIT_ORDER then some ConfigError.unsupportedBitOrder
  else if s.bits_per_word ≠ SPI_WORD_BIT_COUNT then
    some ConfigError.unsupportedWordBitCount
  else none

end MCP23S17

namespace LTC6810

/-- The supported spi mode (ltc6810.py line 14). -/
def SPI_MODE : Nat := 0b11

/-- The supported minimum spi maximum speed, 3e6 (ltc6810.py line 16). -/
def MIN_SPI_MAX_SPEED : ℚ := 3000000

/-- The supported maximum spi maximum speed, 3.5e6 (ltc6810.py line 18). -/
def MAX_SPI_MAX_SPEED : ℚ := 3500000

/-- The supported spi bit order (ltc6810.py line 20). -/
def SPI_BIT_ORDER : String := "msb"

/-- The supported spi number of bits per word (ltc6810.py line 22). -/
def SPI_WORD_BIT_COUNT : Nat := 8

/-- LTC6810.__post_init__ validation chain (ltc6810.py lines 27-39); the
maximum speed must fall within a closed range. -/
def post_init (s : SPISettings) : Option ConfigError :=
  if s.mode ≠ SPI_MODE then some ConfigError.unsupportedMode
  else if ¬(MIN_SPI_MAX_SPEED ≤ s.max_speed ∧ s.max_speed ≤ MAX_SPI_MAX_SPEED)
  then some ConfigError.unsupportedMaxSpeed
  else if s.bit_order ≠ SPI_BIT_ORDER then some ConfigError.unsupportedBitOrder
  else if s.bits_per_word ≠ SPI_WORD_BIT_COUNT then
    some ConfigError.unsupportedWordBitCount
  else none

/-- One bit of the PEC shift-register update of get_packet_error_code_bytes
(ltc6810.py lines 79-103). All the IN values are computed from the old PEC
list before any index is assigned, so the update is simultaneous; the result
list is spelled in index order 0..14. -/
def pecStep (PEC : List Bool) (DIN : Bool) : List Bool :=
  let IN0 := DIN ^^ PEC.getD 14 false
  let IN3 := IN0 ^^ PEC.getD 2 false
  let IN4 := IN0 ^^ PEC.getD 3 false
  let IN7 := IN0 ^^ PEC.getD 6 false
  let IN8 := IN0 ^^ PEC.getD 7 false
  let IN10 := IN0 ^^ PEC.getD 9 false
  let IN14 := IN0 ^^ PEC.getD 13 false
  [IN0, PEC.getD 0 false, PEC.getD 1 false, IN3, IN4, PEC.getD 4 false,
    PEC.getD 5 false, IN7, IN8, PEC.getD 8 false, IN10, PEC.getD 10 false,
    PEC.getD 11 false, PEC.getD 12 false, IN14]

/-- The initial PEC value: 15 false bits with index 4 set
(ltc6810.py lines 74-75). -/
def pecInit : List Bool := (List.replicate 15 false).set 4 true

/-- The per-byte loop: bits 7 down to 0, DIN = bool(data_byte & (1 << i))
(ltc6810.py lines 77-79). -/
def pecProcessByte (PEC : List Bool) (data_byte : Nat) : List Bool :=
  (List.range 8).reverse.foldl
    (fun s i => pecStep s ((data_byte &&& (1 <<< i)) != 0)) PEC

/-- The final packing loop of get_packet_error_code_bytes (ltc6810.py lines
105-116): bit i goes into PEC1 shifted up one for i < 7 and into PEC0 shifted
down seven otherwise. -/
def pecPack (PEC : List Bool) : Nat × Nat :=
  (List.range PEC.length).foldl
    (fun acc i =>
      let bit := (PEC.getD i false).toNat <<< i
      if i < 7 then (acc.1, acc.2 ||| (bit <<< 1))
      else (acc.1 ||| (bit >>> 7), acc.2))
    (0, 0)

/-- LTC6810.get_packet_error_code_bytes (ltc6810.py lines 63-116). -/
def get_packet_error_code_bytes (data_bytes : List Nat) : Nat × Nat :=
  pecPack (data_bytes.foldl pecProcessByte pecInit)

/-- get_broadcast_command_bytes (ltc6810.py lines 197-209):
(command >> 8, command & 0xff). -/
def get_broadcast_command_bytes (command : Nat) : Nat × Nat :=
  (command >>> 8, command &&& ((1 <<< 8) - 1))

/-- get_address_command_bytes (ltc6810.py lines 211-228): the broadcast bytes
with (1 << 7) | (address << 3) OR-ed into CMD0. -/
def get_address_command_bytes (address command : Nat) : Nat × Nat :=
  let p := get_broadcast_command_bytes command
  (p.1 ||| ((1 <<< 7) ||| (address <<< 3)), p.2)

/-- get_address_write_command_bytes (ltc6810.py lines 145-171): broadcast
command bytes, their PEC, the data bytes, and the data PEC, chained. The
address parameter is accepted but never used. -/
def get_address_write_command_bytes (address command : Nat)
    (data_bytes : List Nat) : List Nat :=
  let command_bytes := get_broadcast_command_bytes command
  let command_pec := get_packet_error_code_bytes [command_bytes.1, command_bytes.2]
  let data_pec := get_packet_error_code_bytes data_bytes
  [command_bytes.1, command_bytes.2, command_pec.1, command_pec.2]
    ++ data_bytes ++ [data_pec.1, data_pec.2]

/-- get_address_read_command_bytes (ltc6810.py lines 173-195): a write
command whose payload is all-ones filler of the requested length. -/
def get_address_read_command_bytes (address command data_byte_count : Nat) :
    List Nat :=
  get_address_write_command_bytes address command
    (List.replicate data_byte_count ((1 <<< 8) - 1))

/-- get_address_poll_command_bytes (ltc6810.py lines 118-143): addressed
command bytes, their PEC, and all-ones poll filler. -/
def get_address_poll_command_bytes (address command poll_data_byte_count : Nat) :
    List Nat :=
  let command_bytes := get_address_command_bytes address command
  let command_pec := get_packet_error_code_bytes [command_bytes.1, command_bytes.2]
  [command_bytes.1, command_bytes.2, command_pec.1, command_pec.2]
    ++ List.replicate poll_data_byte_count ((1 <<< 8) - 1)

/-- get_voltage (ltc6810.py lines 44-61): asserts exactly two data bytes,
assembles them little-endian and divides by 10000. -/
def get_voltage (data_bytes : List Nat) : Option ℚ :=
  if data_bytes.length = 2 then
    some (((((data_bytes.getD 1 0) <<< 8) ||| data_bytes.getD 0 0 : Nat) : ℚ)
      / 10000)
  else none

/-- CellVoltageRegisterGroupA (ltc6810.py lines 294-298). -/
structure CellVoltageRegisterGroupA where
  C1V : ℚ
  C2V : ℚ
  C3V : ℚ
  deriving DecidableEq

/-- CellVoltageRegisterGroupB (ltc6810.py lines 323-327). -/
structure CellVoltageRegisterGroupB where
  C4V : ℚ
  C5V : ℚ
  C6V : ℚ
  deriving DecidableEq

/-- read_cell_voltage_register_group_a (ltc6810.py lines 300-321): transmit
the addressed read command for command 0b100 with six data bytes, keep the
last six received bytes, and parse three voltages from byte pairs. No PEC of
the received data is computed or compared anywhere. -/
def read_cell_voltage_register_group_a (transfer : List Nat → List Nat)
    (address : Nat) : Option CellVoltageRegisterGroupA :=
  let transmitted_bytes := get_address_read_command_bytes address 0b00000000100 6
  let received_bytes := pyTakeLast (transfer transmitted_bytes) 6
  match get_voltage (received_bytes.take 2),
      get_voltage ((received_bytes.drop 2).take 2),
      get_voltage ((received_bytes.drop 4).take 2) with
  | some a, some b, some c => some ⟨a, b, c⟩
  | _, _, _ => none

/-- read_cell_voltage_register_group_b (ltc6810.py lines 329-350): as group
a, for command 0b110. -/
def read_cell_voltage_register_group_b (transfer : List Nat → List Nat)
    (address : Nat) : Option CellVoltageRegisterGroupB :=
  let transmitted_bytes := get_address_read_command_bytes address 0b00000000110 6
  let received_bytes := pyTakeLast (transfer transmitted_bytes) 6
  match get_voltage (received_bytes.take 2),
      get_voltage ((received_bytes.drop 2).take 2),
      get_voltage ((received_bytes.drop 4).take 2) with
  | some a, some b, some c => some ⟨a, b, c⟩
  | _, _, _ => none

/-- Spec-side formulation of the fixed tap positions at which the feedback
bit is XOR-ed into the shifted PEC vector. -/
def pecTaps : List Nat := [3, 4, 7, 8, 10, 14]

/-- Spec-side formulation of the seed: a 15-bit vector with only bit index 4
set. -/
def pecSpecInit : List Bool := (List.range 15).map (fun i => i == 4)

/-- Spec-side formulation of one linear-feedback update: the feedback bit is
the incoming bit XOR the top bit of the vector; the vector shifts one
position, with the feedback bit inserted at index 0 and the feedback bit
XOR-ed into the shifted vector at the fixed tap positions. -/
def pecSpecStep (v : List Bool) (din : Bool) : List Bool :=
  let fb := din ^^ v.getD 14 false
  (List.range 15).map fun i =>
    if i = 0 then fb
    else if i ∈ pecTaps then fb ^^ v.getD (i - 1) false
    else v.getD (i - 1) false

/-- Spec-side formulation of one byte: its 8 bits processed from
most-significant to least-significant. -/
def pecSpecByte (v : List Bool) (data_byte : Nat) : List Bool :=
  (List.range 8).reverse.foldl (fun s i => pecSpecStep s (data_byte.testBit i)) v

/-- The natural number whose bit i is the i-th entry of the list. -/
def bitsToNat (l : List Bool) : Nat :=
  l.foldr (fun b acc => b.toNat + 2 * acc) 0

/-- Spec-side formulation of the whole PEC computation: fold the
linear-feedback update over the input bytes starting from the seed, then
split the final 15-bit vector into two 8-bit bytes with the fixed alignment:
the first output byte holds bits 14..7 and the second holds bits 6..0
shifted up one position. -/
def pecSpec (data_bytes : List Nat) : Nat × Nat :=
  let v := data_bytes.foldl pecSpecByte pecSpecInit
  (bitsToNat (v.drop 7), 2 * bitsToNat (v.take 7))

/-- The little-endian voltage of a byte pair, in volts: each LSB is 100uV. -/
def voltageOfPair (b0 b1 : Nat) : ℚ :=
  ((((b1 <<< 8) ||| b0 : Nat) : ℚ)) / 10000

/-- The three voltages parsed from a six-byte slice, group A layout. -/
def specVoltagesA (rx6 : List Nat) : CellVoltageRegisterGroupA :=
  ⟨voltageOfPair (rx6.getD 0 0) (rx6.getD 1 0),
    voltageOfPair (rx6.getD 2 0) (rx6.getD 3 0),
    voltageOfPair (rx6.getD 4 0) (rx6.getD 5 0)⟩

/-- The three voltages parsed from a six-byte slice, group B layout. -/
def specVoltagesB (rx6 : List Nat) : CellVoltageRegisterGroupB :=
  ⟨voltageOfPair (rx6.getD 0 0) (rx6.getD 1 0),
    voltageOfPair (rx6.getD 2 0) (rx6.getD 3 0),
    voltageOfPair (rx6.getD 4 0) (rx6.getD 5 0)⟩

end LTC6810

namespace INA229

/-- The offset of frame i's slice within a batched response: the sum of the
transmitted byte counts of the earlier frames. -/
def frameOffset (frames : List SPIFrame) (i : Nat) : Nat :=
  ((frames.take i).map SPIFrame.transmitted_data_byte_count).sum

/-- The response slice belonging to frame i of a batch. -/
def frameSlice (frames : List SPIFrame) (rx : List Nat) (i : Nat) : List Nat :=
  (rx.drop (frameOffset frames i)).take
    ((frames.getD i default).transmitted_data_byte_count)

end INA229

namespace MCP23S17

/-- The offset of operation i's slice within a batched response. -/
def operationOffset (operations : List Operation) (i : Nat) : Nat :=
  ((operations.take i).map Operation.transmitted_data_byte_count).sum

/-- The response slice belonging to operation i of a batch. -/
def operationSlice (operations : List Operation) (rx : List Nat) (i : Nat) :
    List Nat :=
  (rx.drop (operationOffset operations i)).take
    ((operations.getD i default).transmitted_data_byte_count)

/-- The in-order concatenation of each operation's parsed data bytes: what
operate actually returns (frame boundaries flattened away). -/
def specResults (operations : List Operation) (rx : List Nat) : List Nat :=
  ((List.range operations.length).map
    (fun i => (operations.getD i default).parse_received_data_bytes
      (operationSlice operations rx i))).flatten

end MCP23S17

/-! ### Helper lemmas -/

/-- Two folds agree when the step functions agree on all states satisfying an
invariant preserved by the first step function. -/
theorem foldl_eq_of_agree {α β : Type} (P : α → Prop) (f g : α → β → α)
    (hfg : ∀ a b, P a → f a b = g a b) (hP : ∀ a b, P a → P (f a b)) :
    ∀ (l : List β) (a : α), P a → l.foldl f a = l.foldl g a
  | [], _, _ => rfl
  | b :: l, a, h => by
    rw [List.foldl_cons, List.foldl_cons, ← hfg a b h]
    exact foldl_eq_of_agree P f g hfg hP l (f a b) (hP a b h)

/-- A fold whose step always returns a length-15 list keeps length 15. -/
theorem foldl_length_15 {β : Type} {f : List Bool → β → List Bool}
    (hf : ∀ s b, (f s b).length = 15) :
    ∀ (l : List β) (s : List Bool), s.length = 15 → (l.foldl f s).length = 15
  | [], _, h => h
  | b :: l, s, _ => foldl_length_15 hf l (f s b) (hf s b)

/-- Python bit test: (b & (1 << i)) != 0 agrees with Nat.testBit. -/
theorem land_one_shiftLeft_ne_zero (b i : Nat) :
    ((b &&& (1 <<< i)) != 0) = b.testBit i := by
  rw [Nat.shiftLeft_eq, one_mul, Nat.and_two_pow]
  cases h : b.testBit i <;> simp [Nat.pow_eq_zero]

namespace LTC6810

/-- The PEC update always yields a 15-bit vector. -/
theorem pecStep_length (PEC : List Bool) (d : Bool) :
    (pecStep PEC d).length = 15 := rfl

/-- The spec-side PEC update always yields a 15-bit vector. -/
theorem pecSpecStep_length (v : List Bool) (d : Bool) :
    (pecSpecStep v d).length = 15 := by
  simp [pecSpecStep]

/-- The per-byte loop always yields a 15-bit vector. -/
theorem pecProcessByte_length (PEC : List Bool) (b : Nat) :
    (pecProcessByte PEC b).length = 15 := rfl

/-- The spec-side per-byte loop always yields a 15-bit vector. -/
theorem pecSpecByte_length (v : List Bool) (b : Nat) :
    (pecSpecByte v b).length = 15 := rfl

/-- The seed of the source equals the spec-side seed. -/
theorem pecInit_eq_spec : pecInit = pecSpecInit := by decide

/-- On 15-bit vectors, the source's simultaneous-assignment update equals
the spec-side shift-and-insert formulation. -/
theorem pecStep_eq_spec (v : List Bool) (hv : v.length = 15) (d : Bool) :
    pecStep v d = pecSpecStep v d := by
  rcases v with _ | ⟨a0, v⟩
  · simp at hv
  rcases v with _ | ⟨a1, v⟩
  · simp at hv
  rcases v with _ | ⟨a2, v⟩
  · simp at hv
  rcases v with _ | ⟨a3, v⟩
  · simp at hv
  rcases v with _ | ⟨a4, v⟩
  · simp at hv
  rcases v with _ | ⟨a5, v⟩
  · simp at hv
  rcases v with _ | ⟨a6, v⟩
  · simp at hv
  rcases v with _ | ⟨a7, v⟩
  · simp at hv
  rcases v with _ | ⟨a8, v⟩
  · simp at hv
  rcases v with _ | ⟨a9, v⟩
  · simp at hv
  rcases v with _ | ⟨a10, v⟩
  · simp at hv
  rcases v with _ | ⟨a11, v⟩
  · simp at hv
  rcases v with _ | ⟨a12, v⟩
  · simp at hv
  rcases v with _ | ⟨a13, v⟩
  · simp at hv
  rcases v with _ | ⟨a14, v⟩
  · simp at hv
  rcases v with _ | ⟨a15, v⟩
  · rfl
  · simp at hv

/-- On 15-bit vectors, the per-byte loop equals its spec-side formulation. -/
theorem pecProcessByte_eq_spec (PEC : List Bool) (h : PEC.length = 15)
    (b : Nat) : pecProcessByte PEC b = pecSpecByte PEC b := by
  unfold pecProcessByte pecSpecByte
  refine foldl_eq_of_agree (fun l => l.length = 15) _ _
    (fun a i ha => ?_) (fun a i _ => pecStep_length a _) _ PEC h
  rw [land_one_shiftLeft_ne_zero, pecStep_eq_spec a ha]

/-- On 15-bit vectors, the source's packing loop produces the two 8-bit
bytes of the spec-side split. -/
theorem pecPack_eq_spec (v : List Bool) (hv : v.length = 15) :
    pecPack v = (bitsToNat (v.drop 7), 2 * bitsToNat (v.take 7)) := by
  rcases v with _ | ⟨a0, v⟩
  · simp at hv
  rcases v with _ | ⟨a1, v⟩
  · simp at hv
  rcases v with _ | ⟨a2, v⟩
  · simp at hv
  rcases v with _ | ⟨a3, v⟩
  · simp at hv
  rcases v with _ | ⟨a4, v⟩
  · simp at hv
  rcases v with _ | ⟨a5, v⟩
  · simp at hv
  rcases v with _ | ⟨a6, v⟩
  · simp at hv
  rcases v with _ | ⟨a7, v⟩
  · simp at hv
  rcases v with _ | ⟨a8, v⟩
  · simp at hv
  rcases v with _ | ⟨a9, v⟩
  · simp at hv
  rcases v with _ | ⟨a10, v⟩
  · simp at hv
  rcases v with _ | ⟨a11, v⟩
  · simp at hv
  rcases v with _ | ⟨a12, v⟩
  · simp at hv
  rcases v with _ | ⟨a13, v⟩
  · simp at hv
  rcases v with _ | ⟨a14, v⟩
  · simp at hv
  rcases v with _ | ⟨a15, v⟩
  · refine Prod.ext ?_ ?_
    · simp only [pecPack, List.length_cons, List.length_nil, List.range_succ,
        List.range_zero, List.foldl_append, List.foldl_cons, List.foldl_nil,
        List.getD_cons_zero, List.getD_cons_succ]
      norm_num
      cases a7 <;> cases a8 <;> cases a9 <;> cases a10 <;> cases a11 <;>
        cases a12 <;> cases a13 <;> cases a14 <;> rfl
    · simp only [pecPack, List.length_cons, List.length_nil, List.range_succ,
        List.range_zero, List.foldl_append, List.foldl_cons, List.foldl_nil,
        List.getD_cons_zero, List.getD_cons_succ]
      norm_num
      cases a0 <;> cases a1 <;> cases a2 <;> cases a3 <;> cases a4 <;>
        cases a5 <;> cases a6 <;> rfl
  · simp at hv

/-- get_voltage on an explicit byte pair always succeeds with the
little-endian voltage. -/
theorem get_voltage_pair (b0 b1 : Nat) :
    get_voltage [b0, b1] = some (voltageOfPair b0 b1) := rfl

/-- C3: get_packet_error_code_bytes starts from a 15-bit vector with only
bit index 4 set, processes each byte's 8 bits from most-significant to
least-significant through the fixed-tap linear-feedback update (feedback
bit = incoming bit XOR top bit, feedback XOR-ed at the fixed tap
positions of the shifted vector), and splits the final 15-bit vector into
two 8-bit output bytes with the fixed alignment: it coincides with the
spec-side formulation pecSpec. -/
theorem c3_pec_engine_follows_spec (data_bytes : List Nat) :
    get_packet_error_code_bytes data_bytes = pecSpec data_bytes := by
  unfold get_packet_error_code_bytes pecSpec
  have h : data_bytes.foldl pecProcessByte pecInit
      = data_bytes.foldl pecSpecByte pecSpecInit := by
    rw [← pecInit_eq_spec]
    exact foldl_eq_of_agree (fun l => l.length = 15) _ _
      (fun a b ha => pecProcessByte_eq_spec a ha b)
      (fun a b _ => pecProcessByte_length a b) data_bytes _ rfl
  rw [h]
  exact pecPack_eq_spec _
    (foldl_length_15 (fun s b => pecSpecByte_length s b) data_bytes _ rfl)

/-- C10: the device address argument has no influence on the produced
addressed write and read command bytes, which are built from the broadcast
command encoding. -/
theorem c10_address_has_no_influence :
    (∀ a1 a2 command : Nat, ∀ data_bytes : List Nat,
      get_address_write_command_bytes a1 command data_bytes
        = get_address_write_command_bytes a2 command data_bytes) ∧
    (∀ a1 a2 command data_byte_count : Nat,
      get_address_read_command_bytes a1 command data_byte_count
        = get_address_read_command_bytes a2 command data_byte_count) ∧
    (∀ a command : Nat, ∀ data_bytes : List Nat,
      (get_address_write_command_bytes a command data_bytes).take 2
        = [(get_broadcast_command_bytes command).1,
            (get_broadcast_command_bytes command).2]) :=
  ⟨fun _ _ _ _ => rfl, fun _ _ _ _ => rfl, fun _ _ _ => rfl⟩

end LTC6810

/-- The last-six slice of a response of length at least six has length
exactly six. -/
theorem pyTakeLast_six_length (l : List Nat) (h : 6 ≤ l.length) :
    (pyTakeLast l 6).length = 6 := by
  unfold pyTakeLast
  simp only [if_neg (by omega : ¬(6 = 0)), List.length_drop]
  omega

/-- A cell-voltage read parses the last six received bytes into the three
little-endian voltages whenever the response has at least six bytes,
independently of every other byte of the response. -/
theorem read_group_a_parses (transfer : List Nat → List Nat) (address : Nat)
    (h : 6 ≤ (transfer (LTC6810.get_address_read_command_bytes address 0b100 6)).length) :
    LTC6810.read_cell_voltage_register_group_a transfer address
      = some (LTC6810.specVoltagesA
          (pyTakeLast (transfer
            (LTC6810.get_address_read_command_bytes address 0b100 6)) 6)) := by
  unfold LTC6810.read_cell_voltage_register_group_a
  dsimp only
  have h6 := pyTakeLast_six_length _ h
  generalize hr : pyTakeLast
    (transfer (LTC6810.get_address_read_command_bytes address 0b100 6)) 6 = r at h6 ⊢
  rcases r with _ | ⟨r0, r⟩
  · simp at h6
  rcases r with _ | ⟨r1, r⟩
  · simp at h6
  rcases r with _ | ⟨r2, r⟩
  · simp at h6
  rcases r with _ | ⟨r3, r⟩
  · simp at h6
  rcases r with _ | ⟨r4, r⟩
  · simp at h6
  rcases r with _ | ⟨r5, r⟩
  · simp at h6
  rcases r with _ | ⟨r6, r⟩
  · rfl
  · simp at h6

/-- Group-b variant of read_group_a_parses, for command 0b110. -/
theorem read_group_b_parses (transfer : List Nat → List Nat) (address : Nat)
    (h : 6 ≤ (transfer (LTC6810.get_address_read_command_bytes address 0b110 6)).length) :
    LTC6810.read_cell_voltage_register_group_b transfer address
      = some (LTC6810.specVoltagesB
          (pyTakeLast (transfer
            (LTC6810.get_address_read_command_bytes address 0b110 6)) 6)) := by
  unfold LTC6810.read_cell_voltage_register_group_b
  dsimp only
  have h6 := pyTakeLast_six_length _ h
  generalize hr : pyTakeLast
    (transfer (LTC6810.get_address_read_command_bytes address 0b110 6)) 6 = r at h6 ⊢
  rcases r with _ | ⟨r0, r⟩
  · simp at h6
  rcases r with _ | ⟨r1, r⟩
  · simp at h6
  rcases r with _ | ⟨r2, r⟩
  · simp at h6
  rcases r with _ | ⟨r3, r⟩
  · simp at h6
  rcases r with _ | ⟨r4, r⟩
  · simp at h6
  rcases r with _ | ⟨r5, r⟩
  · simp at h6
  rcases r with _ | ⟨r6, r⟩
  · rfl
  · simp at h6

set_option maxRecDepth 10000 in
/-- C4 counterexample: for an all-zero bus response, the data bytes carry no
valid PEC (the PEC of six zero bytes is nonzero, so no byte pair of the
all-zero response can match it), yet read_cell_voltage_register_group_a
returns a parsed voltage group instead of reporting any error: received
data is never PEC-validated. -/
theorem c4_counterexample :
    LTC6810.read_cell_voltage_register_group_a (fun _ => List.replicate 10 0) 0
        = some ⟨0, 0, 0⟩ ∧
    LTC6810.get_packet_error_code_bytes (List.replicate 6 0) ≠ (0, 0) := by
  constructor
  · have h : LTC6810.read_cell_voltage_register_group_a
        (fun _ => List.replicate 10 0) 0
        = some (LTC6810.specVoltagesA [0, 0, 0, 0, 0, 0]) := rfl
    rw [h]
    simp [LTC6810.specVoltagesA, LTC6810.voltageOfPair]
  · decide

/-- C4 (amended): the cell-voltage read operations perform no PEC validation
of received data: whenever the bus response has at least six bytes, both
reads succeed, returning the three voltages parsed directly from the last
six received bytes; there is no error outcome through which a PEC mismatch
could be reported. -/
theorem c4_reads_never_validate_pec (transfer : List Nat → List Nat)
    (address : Nat)
    (ha : 6 ≤ (transfer (LTC6810.get_address_read_command_bytes address 0b100 6)).length)
    (hb : 6 ≤ (transfer (LTC6810.get_address_read_command_bytes address 0b110 6)).length) :
    LTC6810.read_cell_voltage_register_group_a transfer address
        = some (LTC6810.specVoltagesA
            (pyTakeLast (transfer
              (LTC6810.get_address_read_command_bytes address 0b100 6)) 6)) ∧
    LTC6810.read_cell_voltage_register_group_b transfer address
        = some (LTC6810.specVoltagesB
            (pyTakeLast (transfer
              (LTC6810.get_address_read_command_bytes address 0b110 6)) 6)) :=
  ⟨read_group_a_parses transfer address ha, read_group_b_parses transfer address hb⟩

/-- C4 witness: the amended theorem applied to a concrete twelve-byte
response. -/
theorem c4_witness :
    LTC6810.read_cell_voltage_register_group_a (fun _ => List.replicate 12 1) 3
        = some (LTC6810.specVoltagesA
            (pyTakeLast (List.replicate 12 1) 6)) :=
  (c4_reads_never_validate_pec (fun _ => List.replicate 12 1) 3
    (by decide) (by decide)).1

/-- C5 counterexample: the INA229 SPIReadFrame filler bytes are all zeros,
not all-ones, already for the CONFIG register. -/
theorem c5_counterexample :
    (INA229.SPIFrame.read INA229.Register.CONFIG).data_bytes
      ≠ List.replicate
          (INA229.SPIFrame.read INA229.Register.CONFIG).data_byte_count
          ((1 <<< 8) - 1) := by decide

/-- C5 (amended): every read frame transmits filler bytes of length equal to
its data byte count after the control byte(s); the filler is all-zeros for
INA229 SPIReadFrame, and all-ones for MCP23S17 Read and for the payload of
the LTC6810 read command. -/
theorem c5_read_filler_amended :
    (∀ r : INA229.Register,
      (INA229.SPIFrame.read r).data_bytes
        = List.replicate (INA229.SPIFrame.read r).data_byte_count 0) ∧
    (∀ hardware_address register_address data_byte_count : Nat,
      (MCP23S17.Operation.read hardware_address register_address
          data_byte_count).data_bytes
        = List.replicate data_byte_count ((1 <<< 8) - 1)) ∧
    (∀ address command data_byte_count : Nat,
      LTC6810.get_address_read_command_bytes address command data_byte_count
        = LTC6810.get_address_write_command_bytes address command
            (List.replicate data_byte_count ((1 <<< 8) - 1))) :=
  ⟨fun _ => rfl, fun _ _ _ => rfl, fun _ _ _ => rfl⟩

/-- C6 counterexample: for the 16-bit register ADC_CONFIG (address 0x01) and
value 0, the write frame is constructible, but parsing the echoed
transmitted bytes under a loopback fails (none) instead of round-tripping
to 0: the leading echoed byte is the nonzero control byte, which the parser
requires to be zero. -/
theorem c6_counterexample :
    INA229.mkSPIWriteFrame INA229.Register.ADC_CONFIG 0
        = some (INA229.SPIFrame.write INA229.Register.ADC_CONFIG 0) ∧
    (INA229.SPIFrame.write INA229.Register.ADC_CONFIG 0).parse_received_data
        ((INA229.SPIFrame.write INA229.Register.ADC_CONFIG 0).transmitted_data_bytes)
      = none := by decide

/-- Reassembling the big-endian byte split of v yields v back. -/
theorem shiftRight_shiftLeft_or_and (v : Nat) :
    (((0 <<< 8) ||| (v >>> 8)) <<< 8) ||| (v &&& 255) = v := by
  apply Nat.eq_of_testBit_eq
  intro i
  rcases Nat.lt_or_ge i 8 with hi | hi
  · simp only [Nat.testBit_lor, Nat.testBit_shiftLeft, Nat.testBit_land]
    rw [show (255 : Nat) = 2 ^ 8 - 1 by norm_num, Nat.testBit_two_pow_sub_one]
    simp [Nat.not_le.mpr hi, hi]
  · simp only [Nat.testBit_lor, Nat.testBit_shiftLeft, Nat.testBit_land,
      Nat.testBit_shiftRight, Nat.zero_shiftLeft, Nat.zero_or, Nat.zero_testBit]
    rw [show (255 : Nat) = 2 ^ 8 - 1 by norm_num, Nat.testBit_two_pow_sub_one]
    have h8 : 8 + (i - 8) = i := by omega
    simp [Nat.le_of_lt, hi, h8, Nat.not_lt.mpr hi]

/-- Left shift distributes over bitwise or. -/
theorem lor_shiftLeft (x y k : Nat) :
    (x ||| y) <<< k = (x <<< k) ||| (y <<< k) := by
  apply Nat.eq_of_testBit_eq
  intro i
  simp [Nat.testBit_shiftLeft, Nat.testBit_lor, Bool.and_or_distrib_left]

/-- C6 (amended): the write-then-echo-read round trip under a loopback
transport holds exactly for the register whose address is zero (CONFIG):
parsing the echoed write frame of CONFIG yields the written value back,
while for every register with a nonzero address the parser rejects the
echoed buffer because the leading echo byte (the control byte) is nonzero. -/
theorem c6_loopback_roundtrip_amended (v : Nat) (hv : v < 2 ^ 16) :
    (INA229.SPIFrame.write INA229.Register.CONFIG v).parse_received_data
        ((INA229.SPIFrame.write INA229.Register.CONFIG v).transmitted_data_bytes)
      = some v ∧
    (∀ r : INA229.Register, r.address ≠ 0 →
      (INA229.SPIFrame.write r v).parse_received_data
          ((INA229.SPIFrame.write r v).transmitted_data_bytes) = none) := by
  refine ⟨?_, ?_⟩
  · have ht : (INA229.SPIFrame.write INA229.Register.CONFIG v).transmitted_data_bytes
        = [0, v >>> 8, v &&& 255] := by
      simp [INA229.SPIFrame.transmitted_data_bytes, INA229.SPIFrame.data_bytes,
        INA229.SPIFrame.control_byte, INA229.SPIFrame.read_or_write_bit,
        INA229.SPIFrame.register, INA229.Register.address,
        INA229.SPI_WORD_BIT_COUNT]
    have hcnt3 : (INA229.SPIFrame.write INA229.Register.CONFIG
        v).transmitted_data_byte_count = 3 := by
      simp [INA229.SPIFrame.transmitted_data_byte_count,
        INA229.SPIFrame.data_byte_count, INA229.SPIFrame.register,
        INA229.Register.size, INA229.SPI_WORD_BIT_COUNT]
    have hcnt2 : (INA229.SPIFrame.write INA229.Register.CONFIG
        v).data_byte_count = 2 := by
      simp [INA229.SPIFrame.data_byte_count, INA229.SPIFrame.register,
        INA229.Register.size, INA229.SPI_WORD_BIT_COUNT]
    rw [ht]
    unfold INA229.SPIFrame.parse_received_data
    rw [if_pos ⟨by rw [hcnt3]; rfl, rfl⟩, hcnt2]
    show some ((((0 <<< 8) ||| (v >>> 8)) <<< 8) ||| (v &&& 255)) = some v
    rw [shiftRight_shiftLeft_or_and]
  · intro r hr
    unfold INA229.SPIFrame.parse_received_data
    rw [if_neg]
    rintro ⟨-, hhead⟩
    simp only [INA229.SPIFrame.transmitted_data_bytes, List.headD_cons,
      INA229.SPIFrame.control_byte, INA229.SPIFrame.read_or_write_bit,
      INA229.SPIFrame.register, Bool.toNat_false, Nat.or_zero,
      Nat.shiftLeft_eq] at hhead
    have : r.address = 0 := by
      norm_num at hhead
      omega
    exact hr this

/-- C6 witness: the amended round trip at CONFIG and value 0x1234. -/
theorem c6_witness :
    (INA229.SPIFrame.write INA229.Register.CONFIG 0x1234).parse_received_data
        ((INA229.SPIFrame.write INA229.Register.CONFIG 0x1234).transmitted_data_bytes)
      = some 0x1234 :=
  (c6_loopback_roundtrip_amended 0x1234 (by norm_num)).1

/-- C7: for every 24-bit INA229 register, parsing a read response assembles
the integer (byte0 shifted 16) or (byte1 shifted 8) or byte2 from the three
bytes following the discarded echo byte; the parser rejects any slice whose
length differs from the transmitted byte count (four) and any slice whose
leading echo byte is nonzero. -/
theorem c7_read_24bit_assembly (r : INA229.Register) (h24 : r.size = 24) :
    (∀ b0 b1 b2 : Nat,
      (INA229.SPIFrame.read r).parse_received_data [0, b0, b1, b2]
        = some ((b0 <<< 16) ||| (b1 <<< 8) ||| b2)) ∧
    (∀ bytes : List Nat, bytes.length ≠ 4 →
      (INA229.SPIFrame.read r).parse_received_data bytes = none) ∧
    (∀ e b0 b1 b2 : Nat, e ≠ 0 →
      (INA229.SPIFrame.read r).parse_received_data [e, b0, b1, b2] = none) := by
  have hcount : (INA229.SPIFrame.read r).data_byte_count = 3 := by
    simp [INA229.SPIFrame.data_byte_count, INA229.SPIFrame.register, h24,
      INA229.SPI_WORD_BIT_COUNT]
  have htcount : (INA229.SPIFrame.read r).transmitted_data_byte_count = 4 := by
    simp [INA229.SPIFrame.transmitted_data_byte_count, hcount]
  refine ⟨fun b0 b1 b2 => ?_, fun bytes hlen => ?_, fun e b0 b1 b2 he => ?_⟩
  · unfold INA229.SPIFrame.parse_received_data
    rw [if_pos ⟨by rw [htcount]; rfl, rfl⟩, hcount]
    show some ((((((0 <<< 8) ||| b0) <<< 8) ||| b1) <<< 8) ||| b2) = _
    rw [Nat.zero_shiftLeft, Nat.zero_or, lor_shiftLeft,
      show (16 : Nat) = 8 + 8 from rfl, Nat.shiftLeft_add]
  · unfold INA229.SPIFrame.parse_received_data
    rw [if_neg]
    rintro ⟨hl, -⟩
    rw [htcount] at hl
    exact hlen hl
  · unfold INA229.SPIFrame.parse_received_data
    rw [if_neg]
    rintro ⟨-, hhead⟩
    exact he hhead

/-- C7 witness: the theorem applied to the 24-bit register VSHUNT, a
response with echo byte zero and bytes 1, 2, 3, a wrong-length slice, and a
nonzero echo byte. -/
theorem c7_witness :
    (INA229.SPIFrame.read INA229.Register.VSHUNT).parse_received_data [0, 1, 2, 3]
        = some ((1 <<< 16) ||| (2 <<< 8) ||| 3) ∧
    (INA229.SPIFrame.read INA229.Register.VSHUNT).parse_received_data [0, 1, 2]
        = none ∧
    (INA229.SPIFrame.read INA229.Register.VSHUNT).parse_received_data [9, 1, 2, 3]
        = none :=
  ⟨(c7_read_24bit_assembly INA229.Register.VSHUNT rfl).1 1 2 3,
    (c7_read_24bit_assembly INA229.Register.VSHUNT rfl).2.1 [0, 1, 2] (by decide),
    (c7_read_24bit_assembly INA229.Register.VSHUNT rfl).2.2 9 1 2 3 (by decide)⟩

/-- INA229 validation succeeds exactly when all four settings are
supported. -/
theorem ina229_post_init_none_iff (s : SPISettings) :
    INA229.post_init s = none ↔
      s.mode ∈ INA229.SPI_MODES ∧ s.max_speed ≤ INA229.MAX_SPI_MAX_SPEED ∧
      s.bit_order = INA229.SPI_BIT_ORDER ∧
      s.bits_per_word = INA229.SPI_WORD_BIT_COUNT := by
  unfold INA229.post_init
  split_ifs with h1 h2 h3 h4 <;>
    simp_all [not_lt.mp, le_of_not_lt]

/-- MCP23S17 validation succeeds exactly when all four settings are
supported. -/
theorem mcp23s17_post_init_none_iff (s : SPISettings) :
    MCP23S17.post_init s = none ↔
      s.mode ∈ MCP23S17.SPI_MODES ∧ s.max_speed ≤ MCP23S17.MAX_SPI_MAX_SPEED ∧
      s.bit_order = MCP23S17.SPI_BIT_ORDER ∧
      s.bits_per_word = MCP23S17.SPI_WORD_BIT_COUNT := by
  unfold MCP23S17.post_init
  split_ifs with h1 h2 h3 h4 <;>
    simp_all [not_lt.mp, le_of_not_lt]

/-- LTC6810 validation succeeds exactly when the mode matches, the maximum
speed lies in the closed range, and bit order and word size match. -/
theorem ltc6810_post_init_none_iff (s : SPISettings) :
    LTC6810.post_init s = none ↔
      s.mode = LTC6810.SPI_MODE ∧
      (LTC6810.MIN_SPI_MAX_SPEED ≤ s.max_speed ∧
        s.max_speed ≤ LTC6810.MAX_SPI_MAX_SPEED) ∧
      s.bit_order = LTC6810.SPI_BIT_ORDER ∧
      s.bits_per_word = LTC6810.SPI_WORD_BIT_COUNT := by
  unfold LTC6810.post_init
  split_ifs with h1 h2 h3 h4 <;> simp_all

/-- C8: for all three drivers, construction-time validation accepts a bus
configuration exactly when the mode is in the chip's supported set, the
maximum speed does not exceed the supported maximum (for LTC6810, lies in
the closed range), the bit order is msb and the word size is 8 bits; the
checks run in order (the first failing check names the error), and in
particular bus mode 0b01 yields the unsupported-mode configuration error on
every driver. -/
theorem c8_construction_validation :
    (∀ s : SPISettings,
      (INA229.post_init s = none ↔
        s.mode ∈ INA229.SPI_MODES ∧ s.max_speed ≤ INA229.MAX_SPI_MAX_SPEED ∧
        s.bit_order = INA229.SPI_BIT_ORDER ∧
        s.bits_per_word = INA229.SPI_WORD_BIT_COUNT) ∧
      (MCP23S17.post_init s = none ↔
        s.mode ∈ MCP23S17.SPI_MODES ∧
        s.max_speed ≤ MCP23S17.MAX_SPI_MAX_SPEED ∧
        s.bit_order = MCP23S17.SPI_BIT_ORDER ∧
        s.bits_per_word = MCP23S17.SPI_WORD_BIT_COUNT) ∧
      (LTC6810.post_init s = none ↔
        s.mode = LTC6810.SPI_MODE ∧
        (LTC6810.MIN_SPI_MAX_SPEED ≤ s.max_speed ∧
          s.max_speed ≤ LTC6810.MAX_SPI_MAX_SPEED) ∧
        s.bit_order = LTC6810.SPI_BIT_ORDER ∧
        s.bits_per_word = LTC6810.SPI_WORD_BIT_COUNT)) ∧
    (∀ s : SPISettings, s.mode ∉ INA229.SPI_MODES →
      INA229.post_init s = some ConfigError.unsupportedMode) ∧
    (∀ s : SPISettings, s.mode ∈ INA229.SPI_MODES →
      INA229.MAX_SPI_MAX_SPEED < s.max_speed →
      INA229.post_init s = some ConfigError.unsupportedMaxSpeed) ∧
    (∀ s : SPISettings, s.mode ∈ INA229.SPI_MODES →
      s.max_speed ≤ INA229.MAX_SPI_MAX_SPEED →
      s.bit_order ≠ INA229.SPI_BIT_ORDER →
      INA229.post_init s = some ConfigError.unsupportedBitOrder) ∧
    (∀ s : SPISettings, s.mode ∈ INA229.SPI_MODES →
      s.max_speed ≤ INA229.MAX_SPI_MAX_SPEED →
      s.bit_order = INA229.SPI_BIT_ORDER →
      s.bits_per_word ≠ INA229.SPI_WORD_BIT_COUNT →
      INA229.post_init s = some ConfigError.unsupportedWordBitCount) ∧
    (∀ s : SPISettings, s.mode ≠ LTC6810.SPI_MODE →
      LTC6810.post_init s = some ConfigError.unsupportedMode) ∧
    (∀ s : SPISettings, s.mode = LTC6810.SPI_MODE →
      ¬(LTC6810.MIN_SPI_MAX_SPEED ≤ s.max_speed ∧
          s.max_speed ≤ LTC6810.MAX_SPI_MAX_SPEED) →
      LTC6810.post_init s = some ConfigError.unsupportedMaxSpeed) ∧
    (∀ s : SPISettings, s.mode = 0b01 →
      INA229.post_init s = some ConfigError.unsupportedMode ∧
      MCP23S17.post_init s = some ConfigError.unsupportedMode ∧
      LTC6810.post_init s = some ConfigError.unsupportedMode) := by
  refine ⟨fun s => ⟨ina229_post_init_none_iff s, mcp23s17_post_init_none_iff s,
    ltc6810_post_init_none_iff s⟩, fun s h1 => ?_, fun s h1 h2 => ?_,
    fun s h1 h2 h3 => ?_, fun s h1 h2 h3 h4 => ?_, fun s h1 => ?_,
    fun s h1 h2 => ?_, fun s h1 => ⟨?_, ?_, ?_⟩⟩
  · unfold INA229.post_init
    rw [if_pos h1]
  · unfold INA229.post_init
    rw [if_neg (not_not_intro h1), if_pos h2]
  · unfold INA229.post_init
    rw [if_neg (not_not_intro h1), if_neg (not_lt.mpr h2), if_pos h3]
  · unfold INA229.post_init
    rw [if_neg (not_not_intro h1), if_neg (not_lt.mpr h2),
      if_neg (not_not_intro h3), if_pos h4]
  · unfold LTC6810.post_init
    rw [if_pos h1]
  · unfold LTC6810.post_init
    rw [if_neg (not_not_intro h1), if_pos h2]
  · unfold INA229.post_init
    rw [if_pos (by rw [h1]; decide)]
  · unfold MCP23S17.post_init
    rw [if_pos (by rw [h1]; decide)]
  · unfold LTC6810.post_init
    rw [if_pos (by rw [h1]; decide)]

/-- C8 witness: an otherwise-valid configuration with bus mode 0b01 is
rejected by all three drivers with the unsupported-mode error. -/
theorem c8_witness :
    INA229.post_init ⟨0b01, 3200000, "msb", 8, 0⟩
        = some ConfigError.unsupportedMode ∧
    MCP23S17.post_init ⟨0b01, 3200000, "msb", 8, 0⟩
        = some ConfigError.unsupportedMode ∧
    LTC6810.post_init ⟨0b01, 3200000, "msb", 8, 0⟩
        = some ConfigError.unsupportedMode :=
  c8_construction_validation.2.2.2.2.2.2.2 ⟨0b01, 3200000, "msb", 8, 0⟩ rfl

/-- C9: only 16-bit registers are writable: for every register whose
bit-width is not 16, constructing an SPIWriteFrame fails the post-init
assertion and INA229.write fails, even though the register map declares
24-bit registers (VSHUNT) and 40-bit registers (ENERGY). -/
theorem c9_write_frames_only_16bit :
    (∀ (r : INA229.Register) (d : Nat), r.size ≠ 16 →
      INA229.mkSPIWriteFrame r d = none) ∧
    (∀ (transfer : List Nat → List Nat) (r : INA229.Register) (d : Nat),
      r.size ≠ 16 → INA229.write transfer r d = none) ∧
    INA229.Register.VSHUNT.size = 24 ∧ INA229.Register.ENERGY.size = 40 := by
  refine ⟨fun r d h => ?_, fun t r d h => ?_, rfl, rfl⟩
  · unfold INA229.mkSPIWriteFrame
    rw [if_neg h]
  · have hm : INA229.mkSPIWriteFrame r d = none := by
      unfold INA229.mkSPIWriteFrame
      rw [if_neg h]
    unfold INA229.write
    rw [hm]
    rfl

/-- C9 witness: constructing a write frame for the 40-bit ENERGY register
fails, and so does the write operation through a loopback transport. -/
theorem c9_witness :
    INA229.mkSPIWriteFrame INA229.Register.ENERGY 0 = none ∧
    INA229.write (fun tx => tx) INA229.Register.ENERGY 0 = none :=
  ⟨c9_write_frames_only_16bit.1 INA229.Register.ENERGY 0 (by decide),
    c9_write_frames_only_16bit.2.1 (fun tx => tx) INA229.Register.ENERGY 0
      (by decide)⟩

/-- A fold that appends pieces equals the initial accumulator followed by
the flattened pieces. -/
theorem foldl_append_eq_flatten {α β : Type} (g : α → List β) :
    ∀ (l : List α) (acc : List β),
      l.foldl (fun a x => a ++ g x) acc = acc ++ (l.map g).flatten
  | [], acc => by simp
  | x :: l, acc => by
    rw [List.foldl_cons, foldl_append_eq_flatten g l (acc ++ g x)]
    simp [List.append_assoc]

/-- The INA229 transmit buffer is the in-order concatenation of the frames'
transmitted bytes. -/
theorem spiTransmittedBuffer_eq (fs : List INA229.SPIFrame) :
    INA229.spiTransmittedBuffer fs
      = (fs.map INA229.SPIFrame.transmitted_data_bytes).flatten := by
  unfold INA229.spiTransmittedBuffer
  rw [foldl_append_eq_flatten, List.nil_append]

/-- The MCP23S17 transmit buffer is the in-order concatenation of the
operations' transmitted bytes. -/
theorem operateTransmittedBuffer_eq (ops : List MCP23S17.Operation) :
    MCP23S17.operateTransmittedBuffer ops
      = (ops.map MCP23S17.Operation.transmitted_data_bytes).flatten := by
  unfold MCP23S17.operateTransmittedBuffer
  rw [foldl_append_eq_flatten, List.nil_append]

/-- A constructible INA229 frame transmits exactly its declared byte
count. -/
theorem ina229_transmitted_length (f : INA229.SPIFrame) (h : f.wf) :
    f.transmitted_data_bytes.length = f.transmitted_data_byte_count := by
  cases f with
  | read r =>
    simp only [INA229.SPIFrame.transmitted_data_bytes,
      INA229.SPIFrame.data_bytes, INA229.SPIFrame.transmitted_data_byte_count,
      List.length_cons, List.length_replicate]
    omega
  | write r d =>
    have h16 : r.size = 16 := h
    simp only [INA229.SPIFrame.transmitted_data_bytes,
      INA229.SPIFrame.data_bytes, INA229.SPIFrame.transmitted_data_byte_count,
      INA229.SPIFrame.data_byte_count, INA229.SPIFrame.register, h16,
      INA229.SPI_WORD_BIT_COUNT, List.length_cons, List.length_nil]

/-- Every MCP23S17 operation transmits exactly its declared byte count. -/
theorem mcp23s17_transmitted_length (op : MCP23S17.Operation) :
    op.transmitted_data_bytes.length = op.transmitted_data_byte_count := by
  cases op with
  | read a r n =>
    simp only [MCP23S17.Operation.transmitted_data_bytes,
      MCP23S17.Operation.data_bytes,
      MCP23S17.Operation.transmitted_data_byte_count,
      MCP23S17.Operation.data_byte_count, List.length_cons,
      List.length_replicate]
    omega
  | write a r ds =>
    simp only [MCP23S17.Operation.transmitted_data_bytes,
      MCP23S17.Operation.data_bytes,
      MCP23S17.Operation.transmitted_data_byte_count,
      MCP23S17.Operation.data_byte_count, List.length_cons]
    omega

/-- The INA229 batch buffer length is the sum of the frames' transmitted
byte counts. -/
theorem ina229_buffer_length (fs : List INA229.SPIFrame)
    (hwf : ∀ f ∈ fs, f.wf) :
    (fs.map INA229.SPIFrame.transmitted_data_bytes).flatten.length
      = (fs.map INA229.SPIFrame.transmitted_data_byte_count).sum := by
  induction fs with
  | nil => rfl
  | cons f rest ih =>
    simp only [List.map_cons, List.flatten_cons, List.length_append,
      List.sum_cons]
    rw [ina229_transmitted_length f (hwf f (by simp)),
      ih (fun g hg => hwf g (by simp [hg]))]

/-- The MCP23S17 batch buffer length is the sum of the operations'
transmitted byte counts. -/
theorem mcp23s17_buffer_length (ops : List MCP23S17.Operation) :
    (ops.map MCP23S17.Operation.transmitted_data_bytes).flatten.length
      = (ops.map MCP23S17.Operation.transmitted_data_byte_count).sum := by
  induction ops with
  | nil => rfl
  | cons op rest ih =>
    simp only [List.map_cons, List.flatten_cons, List.length_append,
      List.sum_cons]
    rw [mcp23s17_transmitted_length op, ih]

/-- The call log of spi_communicate is always the single transmit buffer. -/
theorem spi_communicate_log (transfer : List Nat → List Nat)
    (fs : List INA229.SPIFrame) :
    (INA229.spi_communicate transfer fs).2
      = [INA229.spiTransmittedBuffer fs] := by
  unfold INA229.spi_communicate
  dsimp only
  split <;> rfl

/-- When the response-slicing loop succeeds, it yields exactly one parsed
value per frame, in input order, each obtained by parsing that frame's
response slice. -/
theorem parseFrames_sound (frames : List INA229.SPIFrame) :
    ∀ (rx : List Nat) (b : Nat) (vs : List Nat),
      INA229.parseFrames frames rx b = some vs →
      vs.length = frames.length ∧
      ∀ i < frames.length,
        (frames.getD i default).parse_received_data
            ((rx.drop (b + INA229.frameOffset frames i)).take
              ((frames.getD i default).transmitted_data_byte_count))
          = some (vs.getD i 0) := by
  induction frames with
  | nil =>
    intro rx b vs h
    simp only [INA229.parseFrames, Option.some.injEq] at h
    subst h
    exact ⟨rfl, fun i hi => absurd hi (by simp)⟩
  | cons f rest ih =>
    intro rx b vs h
    unfold INA229.parseFrames at h
    rcases hp : f.parse_received_data
        ((rx.drop b).take f.transmitted_data_byte_count) with _ | v
    · rw [hp] at h
      simp at h
    · rw [hp] at h
      rcases hr : INA229.parseFrames rest rx
          (b + f.transmitted_data_byte_count) with _ | vs2
      · rw [hr] at h
        simp at h
      · rw [hr] at h
        simp only [Option.some.injEq] at h
        subst h
        obtain ⟨ih1, ih2⟩ := ih rx (b + f.transmitted_data_byte_count) vs2 hr
        refine ⟨by simp [ih1], fun i hi => ?_⟩
        cases i with
        | zero =>
          simpa [INA229.frameOffset, List.getD_cons_zero] using hp
        | succ i =>
          have hoff : INA229.frameOffset (f :: rest) (i + 1)
              = f.transmitted_data_byte_count + INA229.frameOffset rest i := by
            simp [INA229.frameOffset, List.take_succ_cons]
          have hi2 : i < rest.length := by simpa using hi
          have h2 := ih2 i hi2
          simpa [hoff, List.getD_cons_succ, Nat.add_assoc] using h2

/-- The response-slicing loop of operate returns the flattened per-operation
parsed bytes, each operation parsing its own offset slice. -/
theorem collectOperations_spec (ops : List MCP23S17.Operation) :
    ∀ (rx : List Nat) (b : Nat),
      MCP23S17.collectOperations ops rx b
        = ((List.range ops.length).map
            (fun i => (ops.getD i default).parse_received_data_bytes
              ((rx.drop (b + MCP23S17.operationOffset ops i)).take
                ((ops.getD i default).transmitted_data_byte_count)))).flatten := by
  induction ops with
  | nil =>
    intro rx b
    simp [MCP23S17.collectOperations]
  | cons op rest ih =>
    intro rx b
    unfold MCP23S17.collectOperations
    simp only [List.length_cons]
    rw [List.range_succ_eq_map, List.map_cons, List.map_map,
      List.flatten_cons]
    congr 1
    rw [ih rx (b + op.transmitted_data_byte_count)]
    congr 1
    refine List.map_congr_left fun i hi => ?_
    have hoff : MCP23S17.operationOffset (op :: rest) (i + 1)
        = op.transmitted_data_byte_count + MCP23S17.operationOffset rest i := by
      simp [MCP23S17.operationOffset, List.take_succ_cons]
    simp [Function.comp, hoff, List.getD_cons_succ, Nat.add_assoc]

/-- C1 counterexample: MCP23S17.operate does not return one parsed result
per frame: a single Read operation of two data bytes under a loopback
transport yields a result list of two entries (the flattened data bytes),
not one. -/
theorem c1_counterexample :
    ((MCP23S17.operate (fun tx => tx) [MCP23S17.Operation.read 0 0 2]).1).length
      ≠ [MCP23S17.Operation.read 0 0 2].length := by decide

/-- C1 (amended): both batchers issue exactly one bus transfer whose input
buffer is the in-order concatenation of the frames' transmitted bytes, with
length the sum of the per-frame transmitted byte counts (for INA229, for
frames satisfying the constructor invariant). INA229.spi_communicate, when
it succeeds, returns exactly one parsed integer per frame in input order,
each parsed from the frame's own response slice; MCP23S17.operate instead
returns the in-order concatenation of the per-operation parsed data bytes,
flattening the frame boundaries. -/
theorem c1_batching_amended (transfer : List Nat → List Nat)
    (frames : List INA229.SPIFrame) (ops : List MCP23S17.Operation)
    (hwf : ∀ f ∈ frames, f.wf) :
    (INA229.spi_communicate transfer frames).2
        = [(frames.map INA229.SPIFrame.transmitted_data_bytes).flatten] ∧
    (frames.map INA229.SPIFrame.transmitted_data_bytes).flatten.length
        = (frames.map INA229.SPIFrame.transmitted_data_byte_count).sum ∧
    (∀ vs, (INA229.spi_communicate transfer frames).1 = some vs →
      vs.length = frames.length ∧
      ∀ i < frames.length,
        (frames.getD i default).parse_received_data
            (INA229.frameSlice frames
              (transfer (INA229.spiTransmittedBuffer frames)) i)
          = some (vs.getD i 0)) ∧
    (MCP23S17.operate transfer ops).2
        = [(ops.map MCP23S17.Operation.transmitted_data_bytes).flatten] ∧
    (ops.map MCP23S17.Operation.transmitted_data_bytes).flatten.length
        = (ops.map MCP23S17.Operation.transmitted_data_byte_count).sum ∧
    (MCP23S17.operate transfer ops).1
        = MCP23S17.specResults ops
            (transfer (MCP23S17.operateTransmittedBuffer ops)) := by
  refine ⟨?_, ina229_buffer_length frames hwf, ?_, ?_,
    mcp23s17_buffer_length ops, ?_⟩
  · rw [spi_communicate_log, spiTransmittedBuffer_eq]
  · intro vs h
    unfold INA229.spi_communicate at h
    dsimp only at h
    rw [if_pos] at h
    case hc =>
      by_contra hlen
      rw [if_neg hlen] at h
      simp at h
    · obtain ⟨h1, h2⟩ := parseFrames_sound frames
        (transfer (INA229.spiTransmittedBuffer frames)) 0 vs h
      refine ⟨h1, fun i hi => ?_⟩
      have := h2 i hi
      simpa [INA229.frameSlice] using this
  · rw [show (MCP23S17.operate transfer ops).2
        = [MCP23S17.operateTransmittedBuffer ops] from rfl,
      operateTransmittedBuffer_eq]
  · show MCP23S17.collectOperations ops
        (transfer (MCP23S17.operateTransmittedBuffer ops)) 0
      = MCP23S17.specResults ops
          (transfer (MCP23S17.operateTransmittedBuffer ops))
    rw [collectOperations_spec]
    unfold MCP23S17.specResults MCP23S17.operationSlice
    simp

/-- C1 witness: the amended theorem applied to a loopback transport, one
INA229 read frame and one MCP23S17 read operation. -/
theorem c1_witness :
    (INA229.spi_communicate (fun tx => tx)
        [INA229.SPIFrame.read INA229.Register.CONFIG]).2
      = [([INA229.SPIFrame.read INA229.Register.CONFIG].map
          INA229.SPIFrame.transmitted_data_bytes).flatten] :=
  (c1_batching_amended (fun tx => tx)
    [INA229.SPIFrame.read INA229.Register.CONFIG]
    [MCP23S17.Operation.read 0 0 2]
    (by
      intro f hf
      rw [List.mem_singleton] at hf
      subst hf
      trivial)).1

/-- C2 counterexample: MCP23S17.operate performs no response length check:
for a single Read operation (transmit buffer of four bytes) and a response
of two bytes, it returns the sliced bytes as results instead of failing
with a protocol-framing error and returning nothing. -/
theorem c2_counterexample :
    ([9, 9] : List Nat).length
        ≠ (MCP23S17.operateTransmittedBuffer
            [MCP23S17.Operation.read 0 0 2]).length ∧
    (MCP23S17.operate (fun _ => [9, 9]) [MCP23S17.Operation.read 0 0 2]).1
        = [9, 9] := by decide

/-- C2 (amended): INA229.spi_communicate fails with no partial results
whenever the response length differs from the transmitted length
(all-or-nothing); MCP23S17.operate performs no length check: even for a
mismatched response it returns the per-operation sliced bytes rather than
failing. -/
theorem c2_length_mismatch_amended (transfer : List Nat → List Nat) :
    (∀ frames : List INA229.SPIFrame,
      (transfer (INA229.spiTransmittedBuffer frames)).length
          ≠ (INA229.spiTransmittedBuffer frames).length →
      (INA229.spi_communicate transfer frames).1 = none) ∧
    (∀ ops : List MCP23S17.Operation,
      (transfer (MCP23S17.operateTransmittedBuffer ops)).length
          ≠ (MCP23S17.operateTransmittedBuffer ops).length →
      (MCP23S17.operate transfer ops).1
        = MCP23S17.specResults ops
            (transfer (MCP23S17.operateTransmittedBuffer ops))) := by
  constructor
  · intro frames hlen
    unfold INA229.spi_communicate
    dsimp only
    rw [if_neg hlen]
  · intro ops hlen
    show MCP23S17.collectOperations ops
        (transfer (MCP23S17.operateTransmittedBuffer ops)) 0
      = MCP23S17.specResults ops
          (transfer (MCP23S17.operateTransmittedBuffer ops))
    rw [collectOperations_spec]
    unfold MCP23S17.specResults MCP23S17.operationSlice
    simp

/-- C2 witness: the amended theorem applied to a transport that answers
with an empty buffer: the INA229 batcher returns none. -/
theorem c2_witness :
    (INA229.spi_communicate (fun _ => [])
        [INA229.SPIFrame.read INA229.Register.CONFIG]).1 = none :=
  (c2_length_mismatch_amended (fun _ => [])).1
    [INA229.SPIFrame.read INA229.Register.CONFIG] (by decide)
